import Mathlib

/-!
Verification of the clippy-clippy image-to-request pipeline (src/main.rs).

The development shallowly embeds the behaviorally interesting parts of
`src/main.rs`:

* the serde data model for API responses (`ApiResponse`, `ApiError`,
  `Choice`, `ResponseMessage`, `Usage`, lines 140-173) together with a
  faithful model of what `serde_json::from_str::<ApiResponse>` accepts.
  Generic JSON text parsing is standard and external; typed deserialization
  is modelled as a function `deserializeApiResponse : Json → Option ApiResponse`
  over a JSON value tree, and a response body is passed to the interpreter
  as the raw text together with its generic-JSON parse (`Option Json`,
  where `none` models a body that is not valid JSON at all);
* the response interpretation logic of `call_openai_api`
  (lines 261-331), as `interpretResponse`;
* the request construction of `call_openai_api` (lines 227-248), as
  `buildRequest`;
* the empty-image guard of the orchestrator in `main` (lines 393-397) followed
  by the buffer-construction step of `encode_image_to_base64`
  (lines 184-192), i.e. `image::ImageBuffer::from_raw`, whose acceptance
  condition (from the image crate: `4 * w * h` computed with checked
  multiplication in usize must be at most the buffer length) is modelled
  by `checkImageFits`.  The pipeline up to the point where PNG
  serialization would start is `processClipboardImage`.

Machine integers: `usize` and `u32` values are represented as `Nat`; the
`as u32` casts on lines 186-187 are modelled by `u32cast` (reduction mod
2^32) and the usize checked multiplication bound by `usizeBound` (2^64).
-/

namespace ClippyClippy

/-- Raw clipboard image as produced by arboard (`ImageData`): `width` and
`height` are usize pixel counts, `bytes` the owned RGBA byte buffer. -/
structure RawClipboardImage where
  width : Nat
  height : Nat
  bytes : List Nat
deriving DecidableEq

/-- JSON value tree, the output of generic JSON parsing (the Value type
of serde_json): objects are ordered field lists. -/
inductive Json where
  | null : Json
  | bool (b : Bool) : Json
  | num (n : Int) : Json
  | str (s : String) : Json
  | arr (elems : List Json) : Json
  | obj (fields : List (String × Json)) : Json

/-- First binding of a key in the field list of a JSON object. -/
def lookupField : List (String × Json) → String → Option Json
  | [], _ => none
  | (k, v) :: rest, key => if k = key then some v else lookupField rest key

/-- Embedded error record (src/main.rs lines 149-154): required `message`
and required `type` (renamed to `error_type` in the Rust struct). -/
structure ApiErrorRec where
  message : String
  errorType : String
deriving DecidableEq

/-- Response message (lines 163-166): `content` is `Option<String>`, so a
missing key or a JSON null both deserialize to `none`. -/
structure ResponseMessage where
  content : Option String
deriving DecidableEq

/-- One choice (lines 157-161): required `message`, optional `finish_reason`. -/
structure Choice where
  message : ResponseMessage
  finishReason : Option String
deriving DecidableEq

/-- Token usage record (lines 168-173): three required u32 counters. -/
structure Usage where
  promptTokens : Nat
  completionTokens : Nat
  totalTokens : Nat
deriving DecidableEq

/-- The deserialized API response (lines 140-147): `choices` is a required
`Vec<Choice>`; `usage` and `error` are `#[serde(default)] Option<_>`. -/
structure ApiResponse where
  choices : List Choice
  usage : Option Usage
  error : Option ApiErrorRec
deriving DecidableEq

/-- Serde deserialization of a `String` field value. -/
def deserializeString : Json → Option String
  | Json.str s => some s
  | _ => none

/-- Serde deserialization of an `Option<String>` field value that is
present: JSON null gives `none`, a string gives `some`. -/
def deserializeOptString : Json → Option (Option String)
  | Json.null => some none
  | Json.str s => some (some s)
  | _ => none

/-- Serde deserialization of a u32 field value: a non-negative integer
strictly below 2^32. -/
def deserializeU32 : Json → Option Nat
  | Json.num n => if 0 ≤ n ∧ n < 4294967296 then some n.toNat else none
  | _ => none

/-- Deserialize `ResponseMessage`: an object whose optional `content` key
holds a string or null. -/
def deserializeResponseMessage : Json → Option ResponseMessage
  | Json.obj fields =>
    match lookupField fields "content" with
    | none => some { content := none }
    | some v => (deserializeOptString v).map fun c => { content := c }
  | _ => none

/-- Deserialize one `Choice`: required `message` object, optional
`finish_reason` string-or-null. -/
def deserializeChoice : Json → Option Choice
  | Json.obj fields =>
    match lookupField fields "message" with
    | none => none
    | some mv =>
      match deserializeResponseMessage mv with
      | none => none
      | some m =>
        match lookupField fields "finish_reason" with
        | none => some { message := m, finishReason := none }
        | some fv => (deserializeOptString fv).map fun fr => { message := m, finishReason := fr }
  | _ => none

/-- Deserialize every element of the `choices` array; any bad element
fails the whole deserialization, as serde does. -/
def deserializeChoiceList : List Json → Option (List Choice)
  | [] => some []
  | j :: rest =>
    match deserializeChoice j, deserializeChoiceList rest with
    | some c, some cs => some (c :: cs)
    | _, _ => none

/-- Deserialize `Usage`: an object with the three required u32 fields. -/
def deserializeUsage : Json → Option Usage
  | Json.obj fields =>
    match lookupField fields "prompt_tokens", lookupField fields "completion_tokens",
          lookupField fields "total_tokens" with
    | some pv, some cv, some tv =>
      match deserializeU32 pv, deserializeU32 cv, deserializeU32 tv with
      | some p, some c, some t => some { promptTokens := p, completionTokens := c, totalTokens := t }
      | _, _, _ => none
    | _, _, _ => none
  | _ => none

/-- Deserialize a present `Option<Usage>` value: null gives `none`. -/
def deserializeOptUsage : Json → Option (Option Usage)
  | Json.null => some none
  | j => (deserializeUsage j).map some

/-- Deserialize a present `Option<ApiError>` value: null gives `none`,
otherwise an object with required `message` and `type` strings. -/
def deserializeOptError : Json → Option (Option ApiErrorRec)
  | Json.null => some none
  | Json.obj fields =>
    match lookupField fields "message", lookupField fields "type" with
    | some mv, some tv =>
      match deserializeString mv, deserializeString tv with
      | some m, some t => some (some { message := m, errorType := t })
      | _, _ => none
    | _, _ => none
  | _ => none

/-- The required `choices` field: present, an array, all elements valid. -/
def deserializeChoicesField (fields : List (String × Json)) : Option (List Choice) :=
  match lookupField fields "choices" with
  | some (Json.arr items) => deserializeChoiceList items
  | _ => none

/-- The `usage` field: missing means default `none`. -/
def deserializeUsageField (fields : List (String × Json)) : Option (Option Usage) :=
  match lookupField fields "usage" with
  | none => some none
  | some v => deserializeOptUsage v

/-- The `error` field: missing means default `none`. -/
def deserializeErrorField (fields : List (String × Json)) : Option (Option ApiErrorRec) :=
  match lookupField fields "error" with
  | none => some none
  | some v => deserializeOptError v

/-- Model of `serde_json::from_str::<ApiResponse>` applied to an already
generically parsed JSON value: the body must be an object, `choices` is
required (no `#[serde(default)]` on line 142), `usage` and `error` default
to `none` when absent.  Unknown fields are ignored, as serde does by
default. -/
def deserializeApiResponse : Json → Option ApiResponse
  | Json.obj fields =>
    match deserializeChoicesField fields, deserializeUsageField fields,
          deserializeErrorField fields with
    | some cs, some us, some er => some { choices := cs, usage := us, error := er }
    | _, _, _ => none
  | _ => none

/-- Classified outcome of response interpretation, one constructor per
distinct return site of `call_openai_api` lines 271-331.  The anyhow
messages built at those sites carry exactly the payloads recorded here
(the two ApiError sites both format the message and
type of the embedded record; the HttpError site formats the status and the raw body verbatim). -/
inductive ApiResult where
  | ok (text : String) : ApiResult
  | apiError (message : String) (kind : String) : ApiResult
  | httpError (status : Nat) (body : String) : ApiResult
  | malformedResponse (body : String) : ApiResult
  | noChoices : ApiResult
deriving DecidableEq

/-- reqwest `StatusCode::is_success`: 200 ≤ status ≤ 299. -/
def isSuccess (status : Nat) : Bool :=
  decide (200 ≤ status) && decide (status < 300)

/-- Response interpretation, mirroring `call_openai_api` lines 261-331.
`bodyText` is the raw response text (line 265) and `bodyJson` its
generic-JSON parse (`none` when the text is not JSON).  Non-success path
(lines 271-288): a body that deserializes with an embedded error record
yields `apiError`; anything else yields `httpError` with the raw text.
Success path: deserialization failure yields `malformedResponse`
(lines 292-293); an embedded error record yields `apiError` despite the
success status (lines 296-299); otherwise the content of the first choice is
returned, with null content mapped to the empty string (lines 311-324),
and an empty choices list yields `noChoices` (lines 326-331). -/
def interpretResponse (status : Nat) (bodyText : String) (bodyJson : Option Json) : ApiResult :=
  let parsed := bodyJson.bind deserializeApiResponse
  if isSuccess status then
    match parsed with
    | none => ApiResult.malformedResponse bodyText
    | some r =>
      match r.error with
      | some e => ApiResult.apiError e.message e.errorType
      | none =>
        match r.choices with
        | [] => ApiResult.noChoices
        | c :: _ => ApiResult.ok (c.message.content.getD "")
  else
    match parsed with
    | some r =>
      match r.error with
      | some e => ApiResult.apiError e.message e.errorType
      | none => ApiResult.httpError status bodyText
    | none => ApiResult.httpError status bodyText

/-- Truncating `usize as u32` cast (src/main.rs lines 186-187). -/
def u32cast (n : Nat) : Nat := n % 4294967296

/-- Exclusive usize bound (64-bit targets): 2^64. -/
def usizeBound : Nat := 18446744073709551616

/-- image crate `ImageBuffer::image_buffer_len` for Rgba8: checked
`4 * width * height` in usize, `none` on overflow. -/
def imageBufferLen (width height : Nat) : Option Nat :=
  let s1 := 4 * width
  if s1 < usizeBound then
    let s2 := s1 * height
    if s2 < usizeBound then some s2 else none
  else none

/-- image crate `check_image_fits`: the buffer must hold at least
`4 * width * height` bytes; a longer buffer is accepted. -/
def checkImageFits (width height len : Nat) : Bool :=
  match imageBufferLen width height with
  | some minLen => decide (minLen ≤ len)
  | none => false

/-- Whether `ImageBuffer::from_raw(width as u32, height as u32, bytes)`
on lines 184-189 returns `Some`. -/
def fromRawAccepts (img : RawClipboardImage) : Bool :=
  checkImageFits (u32cast img.width) (u32cast img.height) img.bytes.length

/-- The constructed in-memory image buffer handed to the PNG encoder. -/
structure ImageBuf where
  width : Nat
  height : Nat
  bytes : List Nat
deriving DecidableEq

/-- The anyhow error text of the `ok_or_else` on lines 191-192. -/
def bufferRejectedMessage : String :=
  "Failed to create image buffer from clipboard data. Data length might not match dimensions, or format might not be RGBA8."

/-- The informational stdout message of `main` line 395. -/
def emptyImageMessage : String :=
  "📋 Clipboard image data is empty. Nothing to process."

/-- Pipeline state reached for one clipboard image, up to the point where
PNG serialization (line 200) would start.  `emptyImageInfo` is the
`println!` + `return Ok(())` path of main lines 393-397: the informational
message goes to stdout, the process exits with code 0, and neither
`encode_image_to_base64` nor any network call runs.  `bufferRejected` is
the `Err` return of lines 191-192, which propagates out of `main` as a
failure (non-zero exit).  `pngEncodingReached` means the image buffer was
constructed and PNG encoding is attempted next. -/
inductive PipelineStep where
  | emptyImageInfo (message : String) : PipelineStep
  | bufferRejected (message : String) : PipelineStep
  | pngEncodingReached (buf : ImageBuf) : PipelineStep
deriving DecidableEq

/-- The buffer-construction step of `encode_image_to_base64`
(lines 184-192), before any PNG work. -/
def encodeBufferStep (img : RawClipboardImage) : Except String ImageBuf :=
  if fromRawAccepts img then
    Except.ok { width := u32cast img.width, height := u32cast img.height, bytes := img.bytes }
  else
    Except.error bufferRejectedMessage

/-- Orchestrator handling of a clipboard image (main lines 392-403):
first the empty-image guard `width == 0 || height == 0 || bytes.is_empty()`,
then the buffer-construction step of the encoder. -/
def processClipboardImage (img : RawClipboardImage) : PipelineStep :=
  if img.width == 0 || img.height == 0 || img.bytes.isEmpty then
    PipelineStep.emptyImageInfo emptyImageMessage
  else
    match encodeBufferStep img with
    | Except.error e => PipelineStep.bufferRejected e
    | Except.ok buf => PipelineStep.pngEncodingReached buf

/-- Image URL part of a request (lines 133-138). -/
structure ImageUrl where
  url : String
  detail : Option String
deriving DecidableEq

/-- Content part of a request message (lines 124-131). -/
inductive Content where
  | text (text : String) : Content
  | imageUrl (imageUrl : ImageUrl) : Content
deriving DecidableEq

/-- Request message (lines 118-122). -/
structure Message where
  role : String
  content : List Content
deriving DecidableEq

/-- Chat-completion request payload (lines 111-116). -/
structure ApiRequest where
  model : String
  messages : List Message
  maxTokens : Nat
deriving DecidableEq

/-- Instruction prompt selection (lines 227-231). -/
def promptText (generateMarkdown : Bool) : String :=
  if generateMarkdown then
    "Extract all text from this image accurately. If the image contains tabular data, a list, code, or other structured content, format the output as GitHub Flavored Markdown. Pay attention to formatting details like spacing in tables. Don\x27t use any image related markdown.  Otherwise, return the plain text. Output *only* the extracted text or markdown content and nothing else. Do not include any introductory phrases or explanations.  For bullet points, use hyphens instead of bullet characters, like a normal markdown."
  else
    "Extract all text content from this image accurately. Output *only* the extracted text and nothing else. Do not include any introductory phrases."

/-- Request construction (lines 233-248): a single user message whose
content is the instruction text followed by the image part with detail
"high". -/
def buildRequest (model : String) (base64Image : String) (generateMarkdown : Bool)
    (maxTokens : Nat) : ApiRequest :=
  { model := model
  , messages := [{ role := "user"
                 , content := [ Content.text (promptText generateMarkdown)
                              , Content.imageUrl { url := base64Image, detail := some "high" } ] }]
  , maxTokens := maxTokens }

/-- Raw text of the error-only response body used in the upstream
documentation of the error-handling behavior. -/
def c1Body : String :=
  "\x7b\"error\":\x7b\"message\":\"bad key\",\"type\":\"invalid_request_error\"\x7d\x7d"

/-- Generic-JSON parse of `c1Body`. -/
def c1Json : Json :=
  Json.obj [("error", Json.obj [("message", Json.str "bad key"),
                                ("type", Json.str "invalid_request_error")])]

/-- A body carrying both a (possibly empty) `choices` array and an
embedded error record. -/
def c3Json : Json :=
  Json.obj [("choices", Json.arr []),
            ("error", Json.obj [("message", Json.str "bad key"),
                                ("type", Json.str "invalid_request_error")])]

/-- A body with two choices: the first has content "x", the second has
null content. -/
def c7Json : Json :=
  Json.obj [("choices", Json.arr
    [ Json.obj [("message", Json.obj [("content", Json.str "x")])]
    , Json.obj [("message", Json.obj [("content", Json.null)])] ])]

/-- A body with a single choice whose content is null. -/
def c7SpecJson : Json :=
  Json.obj [("choices", Json.arr [Json.obj [("message", Json.obj [("content", Json.null)])]])]

/-- A body without a `choices` key never deserializes as `ApiResponse`,
because the `choices` field of the Rust struct has no serde default. -/
theorem deserialize_fails_without_choices (fields : List (String × Json))
    (h : lookupField fields "choices" = none) :
    deserializeApiResponse (Json.obj fields) = none := by
  simp [deserializeApiResponse, deserializeChoicesField, h]

/-- Claim C1: the error-only body with HTTP status 401 is claimed to yield
ApiError with message "bad key" and kind "invalid_request_error".  On the
code, that body does not deserialize as ApiResponse (no `choices` key), so
interpretation takes the generic branch: it yields HttpError carrying the
status and the raw body text, not the structured ApiError. -/
theorem c1_error_only_body_is_http_error :
    deserializeApiResponse c1Json = none ∧
    interpretResponse 401 c1Body (some c1Json) = ApiResult.httpError 401 c1Body :=
  ⟨rfl, rfl⟩

/-- Claim C2 as stated is false: it is not the case that every buffer with
positive dimensions and length different from width * height * 4 is
rejected.  A 1 x 1 image with a 5-byte buffer (one byte too long) passes
the buffer-construction check and reaches PNG encoding. -/
theorem c2_counterexample_long_buffer_accepted :
    ¬ (∀ img : RawClipboardImage, 0 < img.width → 0 < img.height →
        img.bytes.length ≠ img.width * img.height * 4 →
        ∃ e, processClipboardImage img = PipelineStep.bufferRejected e) := by
  intro hclaim
  obtain ⟨e, he⟩ := hclaim ⟨1, 1, [0, 0, 0, 0, 0]⟩ (by decide) (by decide) (by decide)
  have hrun : processClipboardImage ⟨1, 1, [0, 0, 0, 0, 0]⟩ =
      PipelineStep.pngEncodingReached ⟨1, 1, [0, 0, 0, 0, 0]⟩ := rfl
  rw [hrun] at he
  exact PipelineStep.noConfusion he

/-- Claim C2 amended: for positive dimensions (below the u32 bound, with
the pixel byte count within usize) and a nonempty byte buffer, the
pipeline rejects the buffer before PNG encoding exactly when the buffer is
shorter than width * height * 4; a buffer at least that long (in
particular a longer one) is accepted and proceeds to PNG encoding. -/
theorem c2_short_buffer_rejected_iff (img : RawClipboardImage)
    (hw : 0 < img.width) (hh : 0 < img.height)
    (hwb : img.width < 4294967296) (hhb : img.height < 4294967296)
    (hprod : 4 * img.width * img.height < usizeBound)
    (hne : img.bytes ≠ []) :
    (processClipboardImage img = PipelineStep.bufferRejected bufferRejectedMessage ↔
      img.bytes.length < img.width * img.height * 4) ∧
    (img.width * img.height * 4 ≤ img.bytes.length →
      processClipboardImage img = PipelineStep.pngEncodingReached
        { width := img.width, height := img.height, bytes := img.bytes }) := by
  obtain ⟨w, ht, bs⟩ := img
  simp only at hw hh hwb hhb hprod hne ⊢
  have hcomm : w * ht * 4 = 4 * w * ht := by ring
  have hw0 : (w == 0) = false := by simp [Nat.pos_iff_ne_zero.mp hw]
  have hh0 : (ht == 0) = false := by simp [Nat.pos_iff_ne_zero.mp hh]
  have hbe : bs.isEmpty = false := by
    cases bs with
    | nil => exact absurd rfl hne
    | cons a l => rfl
  have h1 : 4 * w < usizeBound :=
    lt_of_le_of_lt (Nat.le_mul_of_pos_right (4 * w) hh) hprod
  by_cases hle : 4 * w * ht ≤ bs.length
  · have hstep : processClipboardImage ⟨w, ht, bs⟩ =
        PipelineStep.pngEncodingReached ⟨w, ht, bs⟩ := by
      simp [processClipboardImage, encodeBufferStep, fromRawAccepts, checkImageFits,
        imageBufferLen, u32cast, hw0, hh0, hbe, Nat.mod_eq_of_lt hwb, Nat.mod_eq_of_lt hhb,
        h1, hprod, hle]
    refine ⟨?_, fun _ => hstep⟩
    rw [hstep]
    constructor
    · intro hcontra
      exact absurd hcontra (by simp)
    · intro hlt
      rw [hcomm] at hlt
      omega
  · have hstep : processClipboardImage ⟨w, ht, bs⟩ =
        PipelineStep.bufferRejected bufferRejectedMessage := by
      simp [processClipboardImage, encodeBufferStep, fromRawAccepts, checkImageFits,
        imageBufferLen, u32cast, hw0, hh0, hbe, Nat.mod_eq_of_lt hwb, Nat.mod_eq_of_lt hhb,
        h1, hprod, hle]
    refine ⟨?_, fun hge => absurd (hcomm ▸ hge) hle⟩
    rw [hstep]
    constructor
    · intro _
      rw [hcomm]
      omega
    · intro _
      rfl

/-- Witness for the amended claim C2: a 2 x 1 image with a 5-byte buffer
(three bytes short of 8) is rejected with the buffer-construction error. -/
theorem c2_short_buffer_rejected_iff_witness :
    processClipboardImage ⟨2, 1, [0, 0, 0, 0, 0]⟩ =
      PipelineStep.bufferRejected bufferRejectedMessage :=
  (c2_short_buffer_rejected_iff ⟨2, 1, [0, 0, 0, 0, 0]⟩ (by decide) (by decide)
    (by decide) (by decide) (by decide) (by decide)).1.mpr (by decide)

/-- Claim C3: when the HTTP status is in the success range and the body
deserializes to a response carrying an embedded error record, the
interpreter fails with ApiError built from that record, regardless of the
choices list. -/
theorem c3_embedded_error_wins_on_success (status : Nat) (bodyText : String)
    (j : Json) (r : ApiResponse) (e : ApiErrorRec)
    (hs : isSuccess status = true)
    (hp : deserializeApiResponse j = some r)
    (he : r.error = some e) :
    interpretResponse status bodyText (some j) = ApiResult.apiError e.message e.errorType := by
  simp [interpretResponse, Option.bind, hs, hp, he]

/-- Witness for claim C3: a 200 response whose body has an empty choices
array and an embedded error record fails with that error. -/
theorem c3_embedded_error_wins_on_success_witness :
    interpretResponse 200 "" (some c3Json) =
      ApiResult.apiError "bad key" "invalid_request_error" :=
  c3_embedded_error_wins_on_success 200 "" c3Json
    { choices := [], usage := none,
      error := some { message := "bad key", errorType := "invalid_request_error" } }
    { message := "bad key", errorType := "invalid_request_error" }
    (by decide) (by rfl) rfl

/-- Claim C4: deserializing a body as ApiResponse succeeds only when the
body is a JSON object with a `choices` array; `usage` and `error` may be
absent; a JSON object lacking a `choices` key never deserializes, and for
such a body interpretation can never produce the structured ApiError. -/
theorem c4_choices_field_required :
    (∀ j : Json, (deserializeApiResponse j).isSome = true →
      ∃ fields, j = Json.obj fields ∧
        ∃ items, lookupField fields "choices" = some (Json.arr items)) ∧
    deserializeApiResponse (Json.obj [("choices", Json.arr [])]) =
      some { choices := [], usage := none, error := none } ∧
    (∀ fields, lookupField fields "choices" = none →
      deserializeApiResponse (Json.obj fields) = none) ∧
    (∀ (status : Nat) (bodyText : String) (fields : List (String × Json)) (m k : String),
      lookupField fields "choices" = none →
      interpretResponse status bodyText (some (Json.obj fields)) ≠ ApiResult.apiError m k) := by
  refine ⟨?_, rfl, fun fields h => deserialize_fails_without_choices fields h, ?_⟩
  · intro j hj
    cases j with
    | null => simp [deserializeApiResponse] at hj
    | bool b => simp [deserializeApiResponse] at hj
    | num n => simp [deserializeApiResponse] at hj
    | str s => simp [deserializeApiResponse] at hj
    | arr es => simp [deserializeApiResponse] at hj
    | obj fields =>
      refine ⟨fields, rfl, ?_⟩
      cases hl : lookupField fields "choices" with
      | none =>
        rw [deserialize_fails_without_choices fields hl] at hj
        simp at hj
      | some v =>
        cases v with
        | null => simp [deserializeApiResponse, deserializeChoicesField, hl] at hj
        | bool b => simp [deserializeApiResponse, deserializeChoicesField, hl] at hj
        | num n => simp [deserializeApiResponse, deserializeChoicesField, hl] at hj
        | str s => simp [deserializeApiResponse, deserializeChoicesField, hl] at hj
        | obj fs => simp [deserializeApiResponse, deserializeChoicesField, hl] at hj
        | arr items => exact ⟨items, rfl⟩
  · intro status bodyText fields m k hnone heq
    have hp : deserializeApiResponse (Json.obj fields) = none :=
      deserialize_fails_without_choices fields hnone
    cases hs : isSuccess status with
    | true => simp [interpretResponse, Option.bind, hs, hp] at heq
    | false => simp [interpretResponse, Option.bind, hs, hp] at heq

/-- Witness for claim C4: the minimal deserializable body is an object
with a `choices` array. -/
theorem c4_choices_field_required_witness :
    ∃ fields, Json.obj [("choices", Json.arr [])] = Json.obj fields ∧
      ∃ items, lookupField fields "choices" = some (Json.arr items) :=
  c4_choices_field_required.1 (Json.obj [("choices", Json.arr [])]) (by rfl)

/-- Claim C6: a clipboard image with zero width or zero height, whatever
its byte length, takes the informational empty-image path of main
(lines 393-397): the message is printed, the process returns Ok (exit
code 0), and neither encoding nor any network request happens. -/
theorem c6_empty_dimensions_informational (img : RawClipboardImage)
    (h : img.width = 0 ∨ img.height = 0) :
    processClipboardImage img = PipelineStep.emptyImageInfo emptyImageMessage := by
  rcases h with h | h <;> simp [processClipboardImage, h]

/-- Witness for claim C6: width 0 with a nonempty 3-byte buffer. -/
theorem c6_empty_dimensions_informational_witness :
    processClipboardImage ⟨0, 7, [1, 2, 3]⟩ =
      PipelineStep.emptyImageInfo emptyImageMessage :=
  c6_empty_dimensions_informational ⟨0, 7, [1, 2, 3]⟩ (Or.inl rfl)

/-- Claim C7 as stated is false: a 200 response with no error record and
at least one null-content choice need not yield the empty string.  With
choices [content "x", content null] the interpreter returns "x", because
only the first choice is consulted. -/
theorem c7_counterexample_later_null_choice :
    ¬ (∀ (status : Nat) (bodyText : String) (bodyJson : Option Json) (r : ApiResponse),
        isSuccess status = true →
        bodyJson.bind deserializeApiResponse = some r →
        r.error = none →
        (∃ c ∈ r.choices, c.message.content = none) →
        interpretResponse status bodyText bodyJson = ApiResult.ok "") := by
  intro hclaim
  have h := hclaim 200 "" (some c7Json)
    { choices := [{ message := { content := some "x" }, finishReason := none },
                  { message := { content := none }, finishReason := none }]
    , usage := none, error := none }
    (by decide) (by rfl) rfl
    ⟨{ message := { content := none }, finishReason := none }, by decide, rfl⟩
  have hrun : interpretResponse 200 "" (some c7Json) = ApiResult.ok "x" := rfl
  rw [hrun] at h
  exact absurd h (by decide)

/-- Claim C7 amended: for a success-status response that deserializes with
no embedded error record and a nonempty choices list, the interpreter
returns the content of the first choice with null mapped to the empty
string; in particular a null content in the first choice yields the empty
string and is never treated as an error. -/
theorem c7_first_choice_null_gives_empty (status : Nat) (bodyText : String)
    (j : Json) (r : ApiResponse) (c : Choice) (rest : List Choice)
    (hs : isSuccess status = true)
    (hp : deserializeApiResponse j = some r)
    (he : r.error = none)
    (hc : r.choices = c :: rest) :
    interpretResponse status bodyText (some j) = ApiResult.ok (c.message.content.getD "") ∧
    (c.message.content = none →
      interpretResponse status bodyText (some j) = ApiResult.ok "") := by
  have h1 : interpretResponse status bodyText (some j) =
      ApiResult.ok (c.message.content.getD "") := by
    simp [interpretResponse, Option.bind, hs, hp, he, hc]
  refine ⟨h1, fun hcn => ?_⟩
  rw [h1, hcn]
  rfl

/-- Witness for the amended claim C7: the single-choice null-content body
at status 200 yields the empty string. -/
theorem c7_first_choice_null_gives_empty_witness :
    interpretResponse 200 "" (some c7SpecJson) = ApiResult.ok "" :=
  (c7_first_choice_null_gives_empty 200 "" c7SpecJson
    { choices := [{ message := { content := none }, finishReason := none }]
    , usage := none, error := none }
    { message := { content := none }, finishReason := none } []
    (by decide) (by rfl) rfl rfl).2 rfl

/-- Claim C8: a non-success status whose body does not deserialize as
ApiResponse (including a body that is not JSON at all, modelled by a
`none` generic parse) fails with HttpError carrying the status and the
raw body text verbatim. -/
theorem c8_unparsed_body_http_error (status : Nat) (bodyText : String)
    (bodyJson : Option Json)
    (hs : isSuccess status = false)
    (hp : bodyJson.bind deserializeApiResponse = none) :
    interpretResponse status bodyText bodyJson = ApiResult.httpError status bodyText := by
  simp only [interpretResponse]
  rw [hp]
  simp [hs]

/-- Witness for claim C8: the non-JSON body "Service Unavailable" at
status 503 yields HttpError 503 with the body verbatim. -/
theorem c8_unparsed_body_http_error_witness :
    interpretResponse 503 "Service Unavailable" none =
      ApiResult.httpError 503 "Service Unavailable" :=
  c8_unparsed_body_http_error 503 "Service Unavailable" none (by decide) rfl

/-- Claim C9: for every model, encoded image, markdown flag and token
budget, the built request has exactly one message, whose content is the
instruction text first and the image part second, the image part carries
detail "high", and the model and token budget are passed through;
request building is a total function with no failure mode. -/
theorem c9_request_single_message_ordered (model base64Image : String)
    (generateMarkdown : Bool) (maxTokens : Nat) :
    (buildRequest model base64Image generateMarkdown maxTokens).messages =
      [{ role := "user"
       , content := [ Content.text (promptText generateMarkdown)
                    , Content.imageUrl { url := base64Image, detail := some "high" } ] }] ∧
    (buildRequest model base64Image generateMarkdown maxTokens).messages.length = 1 ∧
    (buildRequest model base64Image generateMarkdown maxTokens).model = model ∧
    (buildRequest model base64Image generateMarkdown maxTokens).maxTokens = maxTokens :=
  ⟨rfl, rfl, rfl, rfl⟩

/-- Witness for claim C9 at concrete arguments. -/
theorem c9_request_single_message_ordered_witness :
    (buildRequest "gpt-4-vision-preview" "data:image/png;base64,AAAA" false 1024).messages =
      [{ role := "user"
       , content := [ Content.text (promptText false)
                    , Content.imageUrl { url := "data:image/png;base64,AAAA"
                                       , detail := some "high" } ] }] :=
  (c9_request_single_message_ordered "gpt-4-vision-preview"
    "data:image/png;base64,AAAA" false 1024).1

/-- Claim C10: an image with nonzero dimensions but an empty byte buffer
takes the informational empty-image path (message, exit 0, no encoding,
no network), not a length-mismatch rejection. -/
theorem c10_empty_bytes_informational (img : RawClipboardImage)
    (_hw : img.width ≠ 0) (_hh : img.height ≠ 0) (hb : img.bytes = []) :
    processClipboardImage img = PipelineStep.emptyImageInfo emptyImageMessage := by
  simp [processClipboardImage, hb]

/-- Witness for claim C10: a 2 x 2 image with an empty buffer. -/
theorem c10_empty_bytes_informational_witness :
    processClipboardImage ⟨2, 2, []⟩ = PipelineStep.emptyImageInfo emptyImageMessage :=
  c10_empty_bytes_informational ⟨2, 2, []⟩ (by decide) (by decide) rfl

end ClippyClippy
